import Mathlib

/-!
# Shallow embedding of the realtime message protocol layer

This file embeds, in Lean 4, the parts of the repository
`prisoners-dilemma-expo` that the verified claims are about:

* `backend/websocket_auth.ts` — `WebSocketAuthenticator.validateJWT`,
  `WebSocketAuthenticator.extractJWTFromURL`, and `ConnectionManager`
  (`addConnection` / `removeConnection` / `getConnection` / `hasConnection`);
* `mobile-app/App.tsx` (the `unified_types` module) — the record and payload
  validators (`validateFriendship`, `validateGameSession`,
  `validateGameMovePayload`), the `MessageTransformer` functions
  (`chatRecordToRealtime`, `realtimeChatToRecord`,
  `friendshipToRealtimeRequest`) and the canonicalizer
  (`ensureFriendshipOrdering`).

Embedding conventions:

* JavaScript `string` is `String`; a nullable string (`string | null`) is
  `Option String` with `none` for `null`.  JavaScript *truthiness* of a
  nullable string (`!x` tests) is the predicate "is `some s` with `s`
  nonempty" — see `truthy` below (both `null` and the empty string are
  falsy in JS).
* JavaScript numbers are embedded as rationals `ℚ` (every concrete number
  appearing in the claims is exactly representable; `NaN`/`Infinity` do not
  occur in any claim input).
* A `void` TypeScript method (a JS function body with no `return`
  statement) evaluates to `undefined`; its return value is embedded as
  `none : Option _`.
* The identity-provider collaborator (`supabase.auth.getUser`) is an
  abstract parameter `provider : String → ProviderOutcome`; the embedded
  `validateJWT` also counts how many times the provider is invoked, so that
  "without contacting the provider" / "single call" are statable.
-/

/-- A user object as returned by the identity provider
(`data.user` of `supabase.auth.getUser`); only the fields the code
reads (`id`, `email`). -/
structure ProviderUser where
  id : String
  email : String
deriving DecidableEq, Repr

/-- The outcome of one call to the identity provider
(`await this.supabase.auth.getUser(jwt)`): either it returns a
`{ data: { user }, error }` pair (`error` may be `null`, `user` may be
`null`), or the awaited call throws. -/
inductive ProviderOutcome where
  | returned (error : Option String) (user : Option ProviderUser)
  | threw (msg : String)
deriving DecidableEq, Repr

/-- A whitespace character as JS `String.prototype.trim` sees it
(the ASCII members of the WhiteSpace / LineTerminator productions; the
tokens in this repository contain no exotic Unicode spaces). -/
def isJSWhitespace (c : Char) : Bool :=
  c = ' ' || c = '\t' || c = '\n' || c = '\r' || c = '\x0b' || c = '\x0c'

/-- JS `jwt.trim()`: strip leading and trailing whitespace. -/
def jsTrim (s : String) : String :=
  String.mk (((s.toList.dropWhile isJSWhitespace).reverse.dropWhile
    isJSWhitespace).reverse)

/-- `Result<AuthData, string>` from `backend/websocket_auth.ts`:
`{ ok: true, value: { userId, email } }` or `{ ok: false, error }`. -/
inductive AuthResult where
  | ok (userId : String) (email : String)
  | err (msg : String)
deriving DecidableEq, Repr

/-- `WebSocketAuthenticator.validateJWT` from `backend/websocket_auth.ts`,
with the identity provider abstracted as `provider`.  The second component
of the result counts how many times the provider was invoked during the
call (the source invokes `supabase.auth.getUser` at most once,
syntactically).

Source (lines 22–65): empty or whitespace-only token returns the
`"Missing JWT token"` error before the `try` block; otherwise the provider
is called; a truthy `error` returns `error.message`; a `null` `data.user`
returns `"No user found for token"`; otherwise the user's `id`/`email` are
returned; a thrown exception is caught and wrapped. -/
def validateJWT (provider : String → ProviderOutcome) (jwt : String) :
    AuthResult × Nat :=
  if jwt = "" ∨ jsTrim jwt = "" then
    (.err "Missing JWT token", 0)
  else
    match provider jwt with
    | .threw m => (.err ("JWT validation failed: " ++ m), 1)
    | .returned (some m) _ => (.err m, 1)
    | .returned none none => (.err "No user found for token", 1)
    | .returned none (some u) => (.ok u.id u.email, 1)

/-- The `ConnectionManager`'s private `connections : Map<string, WebSocket>`,
embedded as a total function from user ids to an optional connection.
`WS` is the opaque connection type. -/
def ConnMap (WS : Type) : Type := String → Option WS

/-- The freshly constructed `ConnectionManager`'s empty map. -/
def emptyConns (WS : Type) : ConnMap WS := fun _ => none

/-- `ConnectionManager.addConnection(userId, webSocket): void`
(lines 84–87): `this.connections.set(userId, webSocket)`, replacing any
existing entry.  The method is `void`: its JS return value is `undefined`,
embedded as the constant `none` second component. -/
def addConnection {WS : Type} (m : ConnMap WS) (userId : String) (webSocket : WS) :
    ConnMap WS × Option WS :=
  (fun k => if k = userId then some webSocket else m k, none)

/-- `ConnectionManager.removeConnection(userId): void` (lines 89–92):
`this.connections.delete(userId)`.  The only parameter is the user id;
no connection argument exists in the source. -/
def removeConnection {WS : Type} (m : ConnMap WS) (userId : String) : ConnMap WS :=
  fun k => if k = userId then none else m k

/-- `ConnectionManager.getConnection(userId)` (lines 99–102):
`this.connections.get(userId) || null` (a stored `WebSocket` object is
always truthy, so `||` only converts `undefined` to `null`). -/
def getConnection {WS : Type} (m : ConnMap WS) (userId : String) : Option WS :=
  m userId

/-- `ConnectionManager.hasConnection(userId)` (lines 94–97):
`this.connections.has(userId)`. -/
def hasConnection {WS : Type} (m : ConnMap WS) (userId : String) : Bool :=
  (m userId).isSome

/-!
## URL parsing (`WebSocketAuthenticator.extractJWTFromURL`)

`extractJWTFromURL` (lines 67–78) builds `new URL(url)` and returns
`urlObject.searchParams.get("token")`, catching the exception a malformed
URL throws and returning `null` instead.  The embedding below models the
WHATWG behaviour of the `URL` constructor for the special schemes the
repository uses (`ws`, `wss`, `http`, `https` — all of the form
`scheme://nonempty-host...`) and of `URLSearchParams.get` restricted to
percent-escape-free URLs (no claim input contains an escape): the query is
the portion after the first `?` (the fragment, after the first `#`, cut
off first), split on `&`; each piece splits at its first `=` into key and
value (a piece with no `=` has the empty value); `get` returns the value
of the first piece whose key is `token`, or `null`.
-/

/-- Split a character list at the first occurrence of `sep`:
`some (before, after)` when `sep` occurs, `none` otherwise. -/
def splitFirst (sep : Char) : List Char → Option (List Char × List Char)
  | [] => none
  | c :: cs =>
    if c = sep then some ([], cs)
    else
      match splitFirst sep cs with
      | none => none
      | some (l, r) => some (c :: l, r)

/-- Split a character list on every occurrence of `sep`
(standard split semantics: n separators yield n+1 pieces). -/
def splitPieces (sep : Char) : List Char → List (List Char)
  | [] => [[]]
  | c :: cs =>
    let rest := splitPieces sep cs
    if c = sep then [] :: rest
    else
      match rest with
      | [] => [[c]]
      | p :: ps => (c :: p) :: ps

/-- A valid URL scheme: one ASCII letter followed by letters, digits,
`+`, `-` or `.`. -/
def validScheme (cs : List Char) : Bool :=
  match cs with
  | [] => false
  | c :: rest =>
    c.isAlpha && rest.all (fun d => d.isAlphanum || d = '+' || d = '-' || d = '.')

/-- A character that terminates the host portion of a URL. -/
def endsHost (c : Char) : Bool :=
  c = '/' || c = '?' || c = '#'

/-- Whether `new URL(url)` succeeds, for URLs of the
`scheme://host...` form the repository uses: a valid scheme before the
first `:`, then `//`, then a nonempty host segment.  Anything else
(in particular a string with no scheme, like `not-a-url`) throws. -/
def parseURLOk (url : String) : Bool :=
  match splitFirst ':' url.toList with
  | none => false
  | some (sch, rest) =>
    validScheme sch &&
    (match rest with
     | '/' :: '/' :: hostAndMore =>
       !(hostAndMore.takeWhile (fun c => !endsHost c)).isEmpty
     | _ => false)

/-- The query component of a URL: cut the fragment (everything from the
first `#`), then take everything after the first `?`; `none` when there
is no `?`. -/
def queryOf (url : String) : Option (List Char) :=
  match splitFirst '?' (url.toList.takeWhile (fun c => c ≠ '#')) with
  | none => none
  | some (_, q) => some q

/-- Split one `key=value` piece of a query string at its first `=`
(a piece with no `=` is a key with empty value). -/
def pieceKV (piece : List Char) : List Char × List Char :=
  match splitFirst '=' piece with
  | none => (piece, [])
  | some (k, v) => (k, v)

/-- `URLSearchParams.get("token")` over the split query pieces: the value
of the first piece whose key is `token`. -/
def findTokenParam : List (List Char) → Option (List Char)
  | [] => none
  | p :: ps =>
    if (pieceKV p).1 = "token".toList then some (pieceKV p).2
    else findTokenParam ps

/-- `WebSocketAuthenticator.extractJWTFromURL` (lines 67–78): parse the
URL (a malformed one returns `null` via the catch branch) and return
`searchParams.get("token")`. -/
def extractJWTFromURL (url : String) : Option String :=
  if parseURLOk url then
    match queryOf url with
    | none => none
    | some q =>
      match findTokenParam (splitPieces '&' q) with
      | none => none
      | some v => some (String.mk v)
  else none

/-!
## Data model and validators from `mobile-app/App.tsx` (unified_types)
-/

/-- `ValidationResult` from `App.tsx`. -/
structure ValidationResult where
  isValid : Bool
  errors : List String
deriving DecidableEq, Repr

/-- JS truthiness of a nullable string field: `null` and the empty string
are falsy, every other string is truthy. -/
def truthy : Option String → Bool
  | none => false
  | some s => !(s == "")

/-- A hexadecimal digit, case-insensitive (the `i` flag on the UUID
regex). -/
def isHexDigit (c : Char) : Bool :=
  c.isDigit || ('a' ≤ c && c ≤ 'f') || ('A' ≤ c && c ≤ 'F')

/-- A run of exactly `n` hex digits (one dash-free segment of the UUID
regex). -/
def hexSeg (n : Nat) (cs : List Char) : Bool :=
  cs.length = n && cs.all isHexDigit

/-- `isValidUUID` from `App.tsx`: the regex
`^[0-9a-f]\x7b8\x7d-[0-9a-f]\x7b4\x7d-[1-5][0-9a-f]\x7b3\x7d-[89ab][0-9a-f]\x7b3\x7d-[0-9a-f]\x7b12\x7d$`
with the `i` flag.  Since hex digits never contain `-`, a string matches
exactly when splitting on `-` gives the five segments with the stated
lengths, alphabets and leading characters. -/
def isValidUUID (s : String) : Bool :=
  match splitPieces '-' s.toList with
  | [s1, s2, s3, s4, s5] =>
    hexSeg 8 s1 && hexSeg 4 s2 && hexSeg 4 s3 && hexSeg 4 s4 && hexSeg 12 s5 &&
    (match s3 with
     | c :: _ => '1' ≤ c && c ≤ '5'
     | [] => false) &&
    (match s4 with
     | c :: _ => c = '8' || c = '9' || c = 'a' || c = 'b' || c = 'A' || c = 'B'
     | [] => false)
  | _ => false

/-- Leap year per the proleptic Gregorian calendar used by JS `Date`. -/
def isLeapYear (y : Nat) : Bool :=
  (y % 4 = 0 && y % 100 ≠ 0) || y % 400 = 0

/-- Number of days in month `m` of year `y`. -/
def daysInMonth (y m : Nat) : Nat :=
  if m = 2 then (if isLeapYear y then 29 else 28)
  else if m = 4 ∨ m = 6 ∨ m = 9 ∨ m = 11 then 30
  else 31

/-- `isValidISODate` from `App.tsx`:
`!isNaN(new Date(s).getTime()) && s === new Date(s).toISOString()`.
A string passes exactly when it already *is* the `toISOString()`
serialization of the instant it denotes: the 24-character
`YYYY-MM-DDTHH:MM:SS.mmmZ` shape with in-range calendar fields
(JS normalizes out-of-range fields, so e.g. a February 30 input
re-serializes differently and fails the equality). -/
def isValidISODate (s : String) : Bool :=
  match s.toList with
  | [y1, y2, y3, y4, '-', o1, o2, '-', d1, d2, 'T',
     h1, h2, ':', i1, i2, ':', e1, e2, '.', l1, l2, l3, 'Z'] =>
    [y1, y2, y3, y4, o1, o2, d1, d2, h1, h2, i1, i2, e1, e2, l1, l2, l3].all
      Char.isDigit &&
    (let year := (y1.toNat - 48) * 1000 + (y2.toNat - 48) * 100 +
                 (y3.toNat - 48) * 10 + (y4.toNat - 48)
     let month := (o1.toNat - 48) * 10 + (o2.toNat - 48)
     let day := (d1.toNat - 48) * 10 + (d2.toNat - 48)
     let hour := (h1.toNat - 48) * 10 + (h2.toNat - 48)
     let minute := (i1.toNat - 48) * 10 + (i2.toNat - 48)
     let second := (e1.toNat - 48) * 10 + (e2.toNat - 48)
     if 1 ≤ month ∧ month ≤ 12 ∧ 1 ≤ day ∧ day ≤ daysInMonth year month ∧
        hour ≤ 23 ∧ minute ≤ 59 ∧ second ≤ 59 then true else false)
  | _ => false

/-- `isValidFriendshipStatus` from `App.tsx`. -/
def isValidFriendshipStatus (status : String) : Bool :=
  if status = "pending" ∨ status = "accepted" ∨ status = "blocked" then true
  else false

/-- `isValidGameType` from `App.tsx`: the closed game-kind set has the
single member `tic_tac_toe`. -/
def isValidGameType (gameType : String) : Bool :=
  if gameType = "tic_tac_toe" then true else false

/-- `isValidSessionStatus` from `App.tsx`. -/
def isValidSessionStatus (status : String) : Bool :=
  if status = "invited" ∨ status = "accepted" ∨ status = "in_progress" ∨
     status = "completed" then true
  else false

/-- `isValidMessageType` from `App.tsx`. -/
def isValidMessageType (messageType : String) : Bool :=
  if messageType = "text" ∨ messageType = "image" ∨ messageType = "system" then
    true
  else false

/-- One `errors.push(msg)` statement guarded by its `if` condition: the
record validators in `App.tsx` are straight-line sequences of these. -/
def pushIf (c : Prop) [Decidable c] (msg : String) (errors : List String) :
    List String :=
  if c then errors ++ [msg] else errors

/-- `Friendship` record from `App.tsx`.  `status` is kept as a raw string
because the validator re-checks enum membership dynamically;
`accepted_at : string | null` becomes `Option String`. -/
structure Friendship where
  id : String
  user1_id : String
  user2_id : String
  status : String
  created_at : String
  accepted_at : Option String
deriving DecidableEq, Repr

/-- `validateFriendship` from `App.tsx` (lines 643–686), check by check in
source order.  On a record of the `Friendship` shape the `typeof` guards
always pass, and `!field` on a string field means "the field is empty". -/
def validateFriendship (friendship : Friendship) : ValidationResult :=
  let errors : List String := []
  let errors := pushIf
    (friendship.id = "" ∨ isValidUUID friendship.id = false)
    "Invalid UUID format for id" errors
  let errors := pushIf
    (friendship.user1_id = "" ∨ isValidUUID friendship.user1_id = false)
    "Invalid UUID format for user1_id" errors
  let errors := pushIf
    (friendship.user2_id = "" ∨ isValidUUID friendship.user2_id = false)
    "Invalid UUID format for user2_id" errors
  let errors := pushIf
    (friendship.user1_id = friendship.user2_id)
    "Users cannot be friends with themselves" errors
  let errors := pushIf
    (friendship.status = "" ∨ isValidFriendshipStatus friendship.status = false)
    "Invalid friendship status" errors
  let errors := pushIf
    (friendship.created_at = "" ∨ isValidISODate friendship.created_at = false)
    "Invalid date format for created_at" errors
  let errors := pushIf
    (friendship.status = "accepted" ∧ truthy friendship.accepted_at = false)
    "Accepted friendships must have accepted_at timestamp" errors
  let errors := pushIf
    (truthy friendship.accepted_at = true ∧
      isValidISODate (friendship.accepted_at.getD "") = false)
    "Invalid date format for accepted_at" errors
  { isValid := errors.isEmpty, errors := errors }

/-- `GameSession` record from `App.tsx`; nullable fields become
`Option String`. -/
structure GameSession where
  id : String
  player1_id : String
  player2_id : String
  game_type : String
  status : String
  winner_id : Option String
  created_at : String
  updated_at : String
  completed_at : Option String
deriving DecidableEq, Repr

/-- `validateGameSession` from `App.tsx` (lines 688–752), check by check
in source order.  Note the two truthiness-sensitive spots: the
`winner_id !== null` guard is a null test (the empty string still reaches
the UUID check), while `session.winner_id && ...` and the
completion-timestamp checks use truthiness. -/
def validateGameSession (session : GameSession) : ValidationResult :=
  let errors : List String := []
  let errors := pushIf
    (session.id = "" ∨ isValidUUID session.id = false)
    "Invalid UUID format for id" errors
  let errors := pushIf
    (session.player1_id = "" ∨ isValidUUID session.player1_id = false)
    "Invalid UUID format for player1_id" errors
  let errors := pushIf
    (session.player2_id = "" ∨ isValidUUID session.player2_id = false)
    "Invalid UUID format for player2_id" errors
  let errors := pushIf
    (session.player1_id = session.player2_id)
    "Players cannot play against themselves" errors
  let errors := pushIf
    (session.game_type = "" ∨ isValidGameType session.game_type = false)
    "Invalid game type" errors
  let errors := pushIf
    (session.status = "" ∨ isValidSessionStatus session.status = false)
    "Invalid session status" errors
  let errors := pushIf
    (session.winner_id ≠ none ∧ isValidUUID (session.winner_id.getD "") = false)
    "Invalid UUID format for winner_id" errors
  let errors := pushIf
    (truthy session.winner_id = true ∧
      session.winner_id.getD "" ≠ session.player1_id ∧
      session.winner_id.getD "" ≠ session.player2_id)
    "Winner must be one of the players" errors
  let errors := pushIf
    (session.created_at = "" ∨ isValidISODate session.created_at = false)
    "Invalid date format for created_at" errors
  let errors := pushIf
    (session.updated_at = "" ∨ isValidISODate session.updated_at = false)
    "Invalid date format for updated_at" errors
  let errors := pushIf
    (session.status = "completed" ∧ truthy session.completed_at = false)
    "Completed sessions must have completed_at timestamp" errors
  let errors := pushIf
    (session.status ≠ "completed" ∧ truthy session.completed_at = true)
    "Non-completed sessions must not have completed_at timestamp" errors
  let errors := pushIf
    (truthy session.completed_at = true ∧
      isValidISODate (session.completed_at.getD "") = false)
    "Invalid date format for completed_at" errors
  { isValid := errors.isEmpty, errors := errors }

/-- `TicTacToeMoveData` as the move-payload validator sees it:
`position` is a JS number or absent (`Option ℚ`; `typeof` failures are
`none`), `boardState` is an array of strings or absent/non-array
(`Option (List String)`). -/
structure TicTacToeMoveData where
  position : Option ℚ
  player : String
  boardState : Option (List String)
deriving DecidableEq, Repr

/-- `GameMovePayload` from `App.tsx`; `moveData` is `none` when the field
is absent or not object-shaped. -/
structure GameMovePayload where
  sessionId : String
  gameType : String
  moveData : Option TicTacToeMoveData
deriving DecidableEq, Repr

/-- `validateGameMovePayload` from `App.tsx` (lines 883–920), check by
check in source order.  The position check is
`typeof moveData.position !== "number" || moveData.position < 0 ||
moveData.position > 8` — a pure range check on a JS *number*, with no
integrality requirement. -/
def validateGameMovePayload (payload : GameMovePayload) : ValidationResult :=
  let moveData := payload.moveData.getD { position := none, player := "", boardState := none }
  let errors : List String := []
  let errors := pushIf
    (payload.sessionId = "" ∨ isValidUUID payload.sessionId = false)
    "Invalid UUID format for sessionId" errors
  let errors := pushIf
    (payload.gameType = "" ∨ isValidGameType payload.gameType = false)
    "Invalid game type" errors
  let errors := pushIf
    (payload.moveData = none)
    "Move data must be an object" errors
  let errors := pushIf
    (payload.gameType = "tic_tac_toe" ∧ payload.moveData ≠ none ∧
      (moveData.position = none ∨ moveData.position.getD 0 < 0 ∨
        8 < moveData.position.getD 0))
    "Tic-tac-toe position must be a number between 0 and 8" errors
  let errors := pushIf
    (payload.gameType = "tic_tac_toe" ∧ payload.moveData ≠ none ∧
      (moveData.player = "" ∨ isValidUUID moveData.player = false))
    "Invalid UUID format for player" errors
  let errors := pushIf
    (payload.gameType = "tic_tac_toe" ∧ payload.moveData ≠ none ∧
      (moveData.boardState = none ∨ (moveData.boardState.getD []).length ≠ 9))
    "Board state must be an array of 9 elements" errors
  { isValid := errors.isEmpty, errors := errors }

/-- `ChatMessageRecord` from `App.tsx`; `read_at : string | null` becomes
`Option String`; `message_type` is kept as a raw string (the
`MessageType` union). -/
structure ChatMessageRecord where
  id : String
  sender_id : String
  receiver_id : String
  content : String
  message_type : String
  created_at : String
  read_at : Option String
deriving DecidableEq, Repr

/-- `ChatPayload` from `App.tsx`. -/
structure ChatPayload where
  content : String
  receiverId : String
  messageType : String
deriving DecidableEq, Repr

/-- `RealtimeMessage<TPayload>` from `App.tsx`: the wire envelope.
`messageId` is optional. -/
structure RealtimeMessage (P : Type) where
  type : String
  payload : P
  userId : String
  timestamp : String
  messageId : Option String
deriving DecidableEq, Repr

/-- The return shape of `realtimeChatToRecord`:
`Omit<ChatMessageRecord, 'created_at' | 'read_at'>`. -/
structure ChatRecordDraft where
  id : String
  sender_id : String
  receiver_id : String
  content : String
  message_type : String
deriving DecidableEq, Repr

/-- `MessageTransformer.chatRecordToRealtime` from `App.tsx`
(lines 485–497). -/
def chatRecordToRealtime (record : ChatMessageRecord) :
    RealtimeMessage ChatPayload :=
  { type := "chat",
    payload :=
      { content := record.content,
        receiverId := record.receiver_id,
        messageType := record.message_type },
    userId := record.sender_id,
    timestamp := record.created_at,
    messageId := some record.id }

/-- `MessageTransformer.realtimeChatToRecord` from `App.tsx`
(lines 499–510). -/
def realtimeChatToRecord (message : RealtimeMessage ChatPayload)
    (generatedId : String) : ChatRecordDraft :=
  { id := generatedId,
    sender_id := message.userId,
    receiver_id := message.payload.receiverId,
    content := message.payload.content,
    message_type := message.payload.messageType }

/-- `UserProfile` record from `App.tsx`. -/
structure UserProfile where
  id : String
  email : String
  display_name : String
  avatar_url : Option String
  created_at : String
  updated_at : String
deriving DecidableEq, Repr

/-- `FriendRequestPayload` from `App.tsx`. -/
structure FriendRequestPayload where
  targetUserId : String
  requesterId : String
  requesterName : String
deriving DecidableEq, Repr

/-- `MessageTransformer.friendshipToRealtimeRequest` from `App.tsx`
(lines 548–560): the payload's target is `friendship.user2_id` and the
requester id `friendship.user1_id`, unconditionally — the
`requesterProfile` argument contributes only the display name. -/
def friendshipToRealtimeRequest (friendship : Friendship)
    (requesterProfile : UserProfile) : RealtimeMessage FriendRequestPayload :=
  { type := "friend_request",
    payload :=
      { targetUserId := friendship.user2_id,
        requesterId := friendship.user1_id,
        requesterName := requesterProfile.display_name },
    userId := friendship.user1_id,
    timestamp := friendship.created_at,
    messageId := some friendship.id }

/-- `ensureFriendshipOrdering` from `App.tsx` (lines 941–943):
`user1Id < user2Id ? [user1Id, user2Id] : [user2Id, user1Id]`, with JS
string comparison embedded as `String`'s lexicographic order. -/
def ensureFriendshipOrdering (user1Id user2Id : String) : String × String :=
  if user1Id < user2Id then (user1Id, user2Id) else (user2Id, user1Id)

/-- `getFriendshipQueryPairs` from `App.tsx` (lines 945–947). -/
def getFriendshipQueryPairs (user1 user2 : String) :
    List (String × String) :=
  [(user1, user2), (user2, user1)]

/-!
## Helper lemmas
-/

/-- Membership in a guarded push: the element was already there, or the
guard holds and the element is the pushed message. -/
theorem mem_pushIf {c : Prop} [Decidable c] {msg a : String} {l : List String} :
    a ∈ pushIf c msg l ↔ a ∈ l ∨ (c ∧ a = msg) := by
  unfold pushIf
  split_ifs with h
  · simp [h]
  · simp [h]

/-- A list with a member is not empty. -/
theorem isEmpty_false_of_mem {a : String} {l : List String} (h : a ∈ l) :
    l.isEmpty = false := by
  cases l
  · cases h
  · rfl

/-!
## Claim theorems
-/

/-- C1 counterexample: after `addConnection("u", 1)` and
`addConnection("u", 2)` the lookup does return the second connection, but
the second `addConnection` call is `void` — its JS return value is
`undefined` (`none`), not the displaced connection `1` the claim
describes, so the claimed conjunction is false at this input. -/
theorem addConnection_no_displaced_return :
    ¬ (getConnection (addConnection (addConnection (emptyConns Nat) "u" 1).1 "u" 2).1 "u"
          = some 2 ∧
       (addConnection (addConnection (emptyConns Nat) "u" 1).1 "u" 2).2 = some 1) := by
  intro h
  have h2 := h.2
  simp [addConnection] at h2

/-- C1 (amended): registering `c1` and then `c2` for the same user makes a
subsequent lookup return `c2` (the replacement semantics hold), but the
second `addConnection` call returns nothing (`undefined`), not the
displaced connection. -/
theorem addConnection_replaces {WS : Type} (m : ConnMap WS) (u : String) (c1 c2 : WS) :
    getConnection (addConnection (addConnection m u c1).1 u c2).1 u = some c2 ∧
    (addConnection (addConnection m u c1).1 u c2).2 = none := by
  constructor
  · simp [getConnection, addConnection]
  · rfl

/-- C2 counterexample: after `addConnection("u", 1)` and
`addConnection("u", 2)`, the teardown call for the displaced connection —
which in the source can only be `removeConnection("u")`, since
`removeConnection` has no connection parameter — is not a no-op: the
lookup no longer returns `2`, contradicting the claim that the registry
is left unchanged. -/
theorem removeConnection_evicts_replacement :
    ¬ (getConnection
        (removeConnection (addConnection (addConnection (emptyConns Nat) "u" 1).1 "u" 2).1 "u")
        "u" = some 2) := by
  simp [getConnection, removeConnection, addConnection]

/-- C2 (amended): `removeConnection` takes only the user id and removes
the entry unconditionally — there is no identity check against the
current connection, so a stale connection's teardown evicts a newer
replacement: after `c1` is displaced by `c2`, `removeConnection(u)`
leaves no entry for `u`. -/
theorem removeConnection_unconditional {WS : Type} (m : ConnMap WS) (u : String)
    (c1 c2 : WS) :
    getConnection
      (removeConnection (addConnection (addConnection m u c1).1 u c2).1 u) u = none ∧
    hasConnection
      (removeConnection (addConnection (addConnection m u c1).1 u c2).1 u) u = false := by
  constructor
  · simp [getConnection, removeConnection]
  · simp [hasConnection, removeConnection]

/-- C7: transforming a chat record to a wire envelope and back with the
record's own id as the generated id preserves sender, receiver, content
and message kind. -/
theorem chatRecord_roundtrip (r : ChatMessageRecord) :
    (realtimeChatToRecord (chatRecordToRealtime r) r.id).sender_id = r.sender_id ∧
    (realtimeChatToRecord (chatRecordToRealtime r) r.id).receiver_id = r.receiver_id ∧
    (realtimeChatToRecord (chatRecordToRealtime r) r.id).content = r.content ∧
    (realtimeChatToRecord (chatRecordToRealtime r) r.id).message_type = r.message_type := by
  exact ⟨rfl, rfl, rfl, rfl⟩

/-- C6 counterexample: a friendship between users `…4000` (user1) and
`…4001` (user2) with the *second* user as the requester: the claim says
the payload's target should then be user1 (`…4000`), the non-requesting
side, but the transformer unconditionally targets `user2_id`, i.e. the
requester themself. -/
theorem friendRequest_target_not_other_side :
    ¬ ((friendshipToRealtimeRequest
        { id := "123e4567-e89b-12d3-a456-426614174002",
          user1_id := "123e4567-e89b-12d3-a456-426614174000",
          user2_id := "123e4567-e89b-12d3-a456-426614174001",
          status := "pending",
          created_at := "2025-06-01T12:00:00.000Z",
          accepted_at := none }
        { id := "123e4567-e89b-12d3-a456-426614174001",
          email := "b@example.com",
          display_name := "Bob",
          avatar_url := none,
          created_at := "2025-06-01T12:00:00.000Z",
          updated_at := "2025-06-01T12:00:00.000Z" }).payload.targetUserId
      = "123e4567-e89b-12d3-a456-426614174000") := by
  decide

/-- C6 (amended): `friendshipToRealtimeRequest` never inspects the
requester profile's id: the payload's target is always the pair's
`user2_id` and the requester id always `user1_id` (so the target is the
non-requesting side only when the requester is user1); the requester name
does equal the profile's display name. -/
theorem friendRequest_fields (f : Friendship) (p : UserProfile) :
    (friendshipToRealtimeRequest f p).payload.targetUserId = f.user2_id ∧
    (friendshipToRealtimeRequest f p).payload.requesterId = f.user1_id ∧
    (friendshipToRealtimeRequest f p).payload.requesterName = p.display_name := by
  exact ⟨rfl, rfl, rfl⟩

/-- C8: for distinct identifiers the canonicalizer is symmetric and
returns the pair sorted strictly by the lexicographic (total,
deterministic) string order. -/
theorem ensureFriendshipOrdering_comm_sorted (a b : String) (h : a ≠ b) :
    ensureFriendshipOrdering a b = ensureFriendshipOrdering b a ∧
    (ensureFriendshipOrdering a b).1 < (ensureFriendshipOrdering a b).2 := by
  rcases lt_trichotomy a b with hlt | heq | hgt
  · have hnb : ¬ b < a := lt_asymm hlt
    constructor
    · simp [ensureFriendshipOrdering, hlt, hnb]
    · simp [ensureFriendshipOrdering, hlt]
  · exact absurd heq h
  · have hna : ¬ a < b := lt_asymm hgt
    constructor
    · simp [ensureFriendshipOrdering, hgt, hna]
    · simp [ensureFriendshipOrdering, hna, hgt]

/-- C8 witness: the theorem applied to the concrete distinct pair
`alice`, `bob`. -/
theorem ensureFriendshipOrdering_comm_sorted_witness :
    ("alice" : String) ≠ "bob" ∧
    (ensureFriendshipOrdering "alice" "bob" = ensureFriendshipOrdering "bob" "alice" ∧
     (ensureFriendshipOrdering "alice" "bob").1 < (ensureFriendshipOrdering "alice" "bob").2) :=
  ⟨by decide, ensureFriendshipOrdering_comm_sorted "alice" "bob" (by decide)⟩

/-- C5 counterexample: a `pending` friendship carrying a well-formed
`accepted_at` instant is reported *valid* — the validator never checks
the converse direction of the "accepted instant iff accepted status"
invariant. -/
theorem friendship_pending_with_acceptedAt_valid :
    validateFriendship
      { id := "123e4567-e89b-12d3-a456-426614174002",
        user1_id := "123e4567-e89b-12d3-a456-426614174000",
        user2_id := "123e4567-e89b-12d3-a456-426614174001",
        status := "pending",
        created_at := "2025-06-01T12:00:00.000Z",
        accepted_at := some "2025-06-05T12:00:00.000Z" } =
    { isValid := true, errors := [] } := by
  decide

/-- C5 (amended): the Friendship validator enforces only the forward
direction of the accepted-instant invariant: a record with status
`accepted` and no (or empty) `accepted_at` is invalid with the specific
violation, but a record whose status is not `accepted` and which carries
a well-formed `accepted_at` receives no accepted-at-related violation at
all (the timestamp is merely format-checked). -/
theorem validateFriendship_acceptedAt (f : Friendship) :
    (f.status = "accepted" → truthy f.accepted_at = false →
      "Accepted friendships must have accepted_at timestamp" ∈
        (validateFriendship f).errors ∧
      (validateFriendship f).isValid = false) ∧
    (∀ s, f.accepted_at = some s → isValidISODate s = true →
      f.status ≠ "accepted" →
      "Accepted friendships must have accepted_at timestamp" ∉
        (validateFriendship f).errors ∧
      "Invalid date format for accepted_at" ∉ (validateFriendship f).errors) := by
  constructor
  · intro hs ha
    have hmem : "Accepted friendships must have accepted_at timestamp" ∈
        (validateFriendship f).errors := by
      simp only [validateFriendship, mem_pushIf, List.not_mem_nil, false_or]
      simp [hs, ha]
    exact ⟨hmem, isEmpty_false_of_mem hmem⟩
  · intro s hsome hiso hstat
    constructor
    · simp only [validateFriendship, mem_pushIf, List.not_mem_nil, false_or]
      simp [hsome, hiso, hstat, truthy]
    · simp only [validateFriendship, mem_pushIf, List.not_mem_nil, false_or]
      simp [hsome, hiso, hstat, truthy]

/-- C5 witness: the theorem applied to a concrete `accepted` record with
`accepted_at = null` (first half) and to a concrete `pending` record
carrying a well-formed `accepted_at` (second half). -/
theorem validateFriendship_acceptedAt_witness :
    ("Accepted friendships must have accepted_at timestamp" ∈
       (validateFriendship
         { id := "123e4567-e89b-12d3-a456-426614174002",
           user1_id := "123e4567-e89b-12d3-a456-426614174000",
           user2_id := "123e4567-e89b-12d3-a456-426614174001",
           status := "accepted",
           created_at := "2025-06-01T12:00:00.000Z",
           accepted_at := none }).errors ∧
     (validateFriendship
         { id := "123e4567-e89b-12d3-a456-426614174002",
           user1_id := "123e4567-e89b-12d3-a456-426614174000",
           user2_id := "123e4567-e89b-12d3-a456-426614174001",
           status := "accepted",
           created_at := "2025-06-01T12:00:00.000Z",
           accepted_at := none }).isValid = false) ∧
    ("Accepted friendships must have accepted_at timestamp" ∉
       (validateFriendship
         { id := "123e4567-e89b-12d3-a456-426614174002",
           user1_id := "123e4567-e89b-12d3-a456-426614174000",
           user2_id := "123e4567-e89b-12d3-a456-426614174001",
           status := "pending",
           created_at := "2025-06-01T12:00:00.000Z",
           accepted_at := some "2025-06-05T12:00:00.000Z" }).errors ∧
     "Invalid date format for accepted_at" ∉
       (validateFriendship
         { id := "123e4567-e89b-12d3-a456-426614174002",
           user1_id := "123e4567-e89b-12d3-a456-426614174000",
           user2_id := "123e4567-e89b-12d3-a456-426614174001",
           status := "pending",
           created_at := "2025-06-01T12:00:00.000Z",
           accepted_at := some "2025-06-05T12:00:00.000Z" }).errors) :=
  ⟨(validateFriendship_acceptedAt _).1 rfl rfl,
   (validateFriendship_acceptedAt _).2 "2025-06-05T12:00:00.000Z" rfl
     (by decide) (by decide)⟩

/-- C9: the GameSession validator enforces both directions of the
completion-timestamp invariant: a `completed` session with a `null`
`completed_at` gets the completion violation, and a non-`completed`
session with a non-null, nonempty `completed_at` gets the converse
violation; in both cases the record is reported invalid. -/
theorem validateGameSession_completion (s : GameSession) :
    (s.status = "completed" → s.completed_at = none →
      "Completed sessions must have completed_at timestamp" ∈
        (validateGameSession s).errors ∧
      (validateGameSession s).isValid = false) ∧
    (s.status ≠ "completed" → ∀ t, s.completed_at = some t → t ≠ "" →
      "Non-completed sessions must not have completed_at timestamp" ∈
        (validateGameSession s).errors ∧
      (validateGameSession s).isValid = false) := by
  constructor
  · intro hs hc
    have hmem : "Completed sessions must have completed_at timestamp" ∈
        (validateGameSession s).errors := by
      simp only [validateGameSession, mem_pushIf, List.not_mem_nil, false_or]
      simp [hs, hc, truthy]
    exact ⟨hmem, isEmpty_false_of_mem hmem⟩
  · intro hs t hc ht
    have hmem : "Non-completed sessions must not have completed_at timestamp" ∈
        (validateGameSession s).errors := by
      simp only [validateGameSession, mem_pushIf, List.not_mem_nil, false_or]
      simp [hs, hc, ht, truthy]
    exact ⟨hmem, isEmpty_false_of_mem hmem⟩

/-- C9 witness: the theorem applied to a concrete completed session with
`completed_at = null` and to a concrete `in_progress` session with a
non-null `completed_at`. -/
theorem validateGameSession_completion_witness :
    ("Completed sessions must have completed_at timestamp" ∈
       (validateGameSession
         { id := "123e4567-e89b-12d3-a456-426614174002",
           player1_id := "123e4567-e89b-12d3-a456-426614174000",
           player2_id := "123e4567-e89b-12d3-a456-426614174001",
           game_type := "tic_tac_toe",
           status := "completed",
           winner_id := none,
           created_at := "2025-06-01T12:00:00.000Z",
           updated_at := "2025-06-01T12:00:00.000Z",
           completed_at := none }).errors ∧
     (validateGameSession
         { id := "123e4567-e89b-12d3-a456-426614174002",
           player1_id := "123e4567-e89b-12d3-a456-426614174000",
           player2_id := "123e4567-e89b-12d3-a456-426614174001",
           game_type := "tic_tac_toe",
           status := "completed",
           winner_id := none,
           created_at := "2025-06-01T12:00:00.000Z",
           updated_at := "2025-06-01T12:00:00.000Z",
           completed_at := none }).isValid = false) ∧
    ("Non-completed sessions must not have completed_at timestamp" ∈
       (validateGameSession
         { id := "123e4567-e89b-12d3-a456-426614174002",
           player1_id := "123e4567-e89b-12d3-a456-426614174000",
           player2_id := "123e4567-e89b-12d3-a456-426614174001",
           game_type := "tic_tac_toe",
           status := "in_progress",
           winner_id := none,
           created_at := "2025-06-01T12:00:00.000Z",
           updated_at := "2025-06-01T12:00:00.000Z",
           completed_at := some "2025-06-02T12:00:00.000Z" }).errors ∧
     (validateGameSession
         { id := "123e4567-e89b-12d3-a456-426614174002",
           player1_id := "123e4567-e89b-12d3-a456-426614174000",
           player2_id := "123e4567-e89b-12d3-a456-426614174001",
           game_type := "tic_tac_toe",
           status := "in_progress",
           winner_id := none,
           created_at := "2025-06-01T12:00:00.000Z",
           updated_at := "2025-06-01T12:00:00.000Z",
           completed_at := some "2025-06-02T12:00:00.000Z" }).isValid = false) :=
  ⟨(validateGameSession_completion _).1 rfl rfl,
   (validateGameSession_completion _).2 (by decide) "2025-06-02T12:00:00.000Z"
     rfl (by decide)⟩

/-- C4 counterexample: a move payload whose `position` is the non-integer
number 9/2 = 4.5 produces no violation at all — the validator's range
check `position < 0 || position > 8` never tests integrality, so
"accepts exactly the integers in [0,8]" is false. -/
theorem gameMove_position_not_integer_checked :
    (validateGameMovePayload
      { sessionId := "123e4567-e89b-12d3-a456-426614174000",
        gameType := "tic_tac_toe",
        moveData := some
          { position := some (mkRat 9 2),
            player := "123e4567-e89b-12d3-a456-426614174001",
            boardState := some ["X", "", "", "", "", "", "", "", ""] } }).isValid
      = true ∧
    (mkRat 9 2).isInt = false := by
  decide

/-- C4 (amended): for a tic-tac-toe move payload with object-shaped
`moveData`, the position violation is produced exactly when
`moveData.position` is not a number in the closed interval [0,8] —
any number in range is accepted, integer or not (so 0..8 are accepted
and −1, 9, 10, 100 rejected). -/
theorem validateGameMovePayload_position_range (p : GameMovePayload)
    (md : TicTacToeMoveData) (h1 : p.moveData = some md)
    (h2 : p.gameType = "tic_tac_toe") :
    "Tic-tac-toe position must be a number between 0 and 8" ∈
        (validateGameMovePayload p).errors ↔
      ¬ ∃ q : ℚ, md.position = some q ∧ 0 ≤ q ∧ q ≤ 8 := by
  simp only [validateGameMovePayload, mem_pushIf, List.not_mem_nil, false_or]
  simp only [h1, h2]
  rcases hmd : md.position with _ | q
  · simp [hmd]
  · simp [hmd, ← not_le, not_and_or]
    tauto

/-- C4 witness: the amended theorem applied to a concrete payload with
position 5 shows the violation is absent there. -/
theorem validateGameMovePayload_position_range_witness :
    "Tic-tac-toe position must be a number between 0 and 8" ∉
      (validateGameMovePayload
        { sessionId := "123e4567-e89b-12d3-a456-426614174000",
          gameType := "tic_tac_toe",
          moveData := some
            { position := some 5,
              player := "123e4567-e89b-12d3-a456-426614174001",
              boardState := some ["X", "", "", "", "", "", "", "", ""] } }).errors :=
  fun hmem =>
    (validateGameMovePayload_position_range _
      { position := some 5,
        player := "123e4567-e89b-12d3-a456-426614174001",
        boardState := some ["X", "", "", "", "", "", "", "", ""] }
      rfl rfl).mp hmem ⟨5, rfl, by decide, by decide⟩

/-- C3: `validateJWT` returns the `MissingToken` failure, without
invoking the identity provider, exactly on empty/whitespace-only tokens;
on every other token the provider is invoked exactly once, a provider
error is passed through verbatim as the failure message, an absent
identity yields the no-user failure, and provider success yields `ok`
with the identity's id and email. -/
theorem validateJWT_spec (provider : String → ProviderOutcome) (jwt : String) :
    (jsTrim jwt = "" → validateJWT provider jwt = (.err "Missing JWT token", 0)) ∧
    (jsTrim jwt ≠ "" →
      (validateJWT provider jwt).2 = 1 ∧
      (∀ m u, provider jwt = .returned (some m) u →
        (validateJWT provider jwt).1 = .err m) ∧
      (provider jwt = .returned none none →
        (validateJWT provider jwt).1 = .err "No user found for token") ∧
      (∀ i e, provider jwt = .returned none (some ⟨i, e⟩) →
        (validateJWT provider jwt).1 = .ok i e)) := by
  constructor
  · intro h
    simp [validateJWT, h]
  · intro h
    have hne : jwt ≠ "" := by
      intro hjwt
      subst hjwt
      exact h rfl
    have hcond : ¬ (jwt = "" ∨ jsTrim jwt = "") := by
      rintro (h1 | h2)
      · exact hne h1
      · exact h h2
    refine ⟨?_, ?_, ?_, ?_⟩
    · unfold validateJWT
      rw [if_neg hcond]
      rcases provider jwt with ⟨e, u⟩ | m
      · rcases e with _ | m
        · rcases u with _ | u <;> rfl
        · rfl
      · rfl
    · intro m u hp
      unfold validateJWT
      rw [if_neg hcond, hp]
    · intro hp
      unfold validateJWT
      rw [if_neg hcond, hp]
    · intro i e hp
      unfold validateJWT
      rw [if_neg hcond, hp]

/-- C3 witness: the theorem applied to a non-blank token and a provider
that accepts it with the test identity. -/
theorem validateJWT_spec_witness :
    (validateJWT
      (fun _ => .returned none (some { id := "user_123", email := "test@example.com" }))
      "valid_jwt_token").1 = .ok "user_123" "test@example.com" :=
  ((validateJWT_spec
      (fun _ => .returned none (some { id := "user_123", email := "test@example.com" }))
      "valid_jwt_token").2 (by decide)).2.2.2 "user_123" "test@example.com" rfl

/-- Appending distributes over conversion to character lists. -/
theorem toList_append (s t : String) : (s ++ t).toList = s.toList ++ t.toList :=
  String.data_append s t

/-- Splitting at the first `sep` of `l1 ++ sep :: l2` with `sep ∉ l1`
yields `(l1, l2)`. -/
theorem splitFirst_append_sep {sep : Char} {l1 l2 : List Char} (h : sep ∉ l1) :
    splitFirst sep (l1 ++ sep :: l2) = some (l1, l2) := by
  induction l1 with
  | nil => simp [splitFirst]
  | cons c cs ih =>
    simp only [List.mem_cons, not_or] at h
    have hc : ¬ c = sep := fun hh => h.1 hh.symm
    simp only [List.cons_append, splitFirst, if_neg hc, List.append_eq, ih h.2]

/-- Splitting at a separator that does not occur yields `none`. -/
theorem splitFirst_eq_none {sep : Char} {l : List Char} (h : sep ∉ l) :
    splitFirst sep l = none := by
  induction l with
  | nil => rfl
  | cons c cs ih =>
    simp only [List.mem_cons, not_or] at h
    have hc : ¬ c = sep := fun hh => h.1 hh.symm
    simp only [splitFirst, if_neg hc, List.append_eq, ih h.2]

/-- C10: for a well-formed connection URL whose `token` query parameter
is present with an empty value, `extractJWTFromURL` returns the empty
string (`some ""`), unlike a URL without the parameter or a malformed
URL, which both yield `none`; and feeding the empty string to
`validateJWT` yields the missing-token failure without contacting the
provider, so an empty token parameter still refuses the connection. -/
theorem extractJWT_empty_token_value (provider : String → ProviderOutcome)
    (host path : String)
    (hne : host.toList ≠ [])
    (hhost : ∀ c ∈ host.toList, c ≠ '/' ∧ c ≠ '?' ∧ c ≠ '#')
    (hpath : ∀ c ∈ path.toList, c ≠ '?' ∧ c ≠ '#') :
    extractJWTFromURL ("ws://" ++ host ++ "/" ++ path ++ "?token=") = some "" ∧
    extractJWTFromURL ("ws://" ++ host ++ "/" ++ path) = none ∧
    extractJWTFromURL "not-a-url" = none ∧
    validateJWT provider "" = (.err "Missing JWT token", 0) := by
  obtain ⟨h0, hs, hH⟩ := List.exists_cons_of_ne_nil hne
  have hh0 := hhost h0 (by rw [hH]; exact List.mem_cons_self _ _)
  have hl1 : ("ws://" : String).toList = ['w', 's', ':', '/', '/'] := rfl
  have hl2 : ("/" : String).toList = ['/'] := rfl
  have hl3 : ("?token=" : String).toList = ['?', 't', 'o', 'k', 'e', 'n', '='] := rfl
  have hlist1 : ("ws://" ++ host ++ "/" ++ path ++ "?token=").toList =
      'w' :: 's' :: ':' :: '/' :: '/' ::
        (host.toList ++ '/' ::
          (path.toList ++ '?' :: ['t', 'o', 'k', 'e', 'n', '='])) := by
    simp [toList_append, hl1, hl2, hl3]
  have hlist2 : ("ws://" ++ host ++ "/" ++ path).toList =
      'w' :: 's' :: ':' :: '/' :: '/' :: (host.toList ++ '/' :: path.toList) := by
    simp [toList_append, hl1, hl2]
  have hvs : validScheme ['w', 's'] = true := by decide
  have hends : endsHost h0 = false := by
    simp [endsHost, hh0.1, hh0.2.1, hh0.2.2]
  refine ⟨?_, ?_, by decide, by simp [validateJWT]⟩
  · -- token parameter present with empty value
    have hreassoc : 'w' :: 's' :: ':' :: '/' :: '/' ::
        (host.toList ++ '/' :: (path.toList ++ '?' :: ['t', 'o', 'k', 'e', 'n', '='])) =
        ('w' :: 's' :: ':' :: '/' :: '/' :: (host.toList ++ '/' :: path.toList)) ++
          '?' :: ['t', 'o', 'k', 'e', 'n', '='] := by
      simp [List.append_assoc]
    have hnotq : '?' ∉
        ('w' :: 's' :: ':' :: '/' :: '/' :: (host.toList ++ '/' :: path.toList)) := by
      intro hmem
      rw [List.mem_cons, List.mem_cons, List.mem_cons, List.mem_cons, List.mem_cons,
          List.mem_append, List.mem_cons] at hmem
      rcases hmem with h | h | h | h | h | h | h | h
      · exact absurd h (by decide)
      · exact absurd h (by decide)
      · exact absurd h (by decide)
      · exact absurd h (by decide)
      · exact absurd h (by decide)
      · exact (hhost _ h).2.1 rfl
      · exact absurd h (by decide)
      · exact (hpath _ h).1 rfl
    have hsplitQ := @splitFirst_append_sep '?'
      ('w' :: 's' :: ':' :: '/' :: '/' :: (host.toList ++ '/' :: path.toList))
      ['t', 'o', 'k', 'e', 'n', '='] hnotq
    have htw : ('w' :: 's' :: ':' :: '/' :: '/' ::
        (host.toList ++ '/' ::
          (path.toList ++ '?' :: ['t', 'o', 'k', 'e', 'n', '=']))).takeWhile
          (fun c => decide (c ≠ '#')) =
        'w' :: 's' :: ':' :: '/' :: '/' ::
          (host.toList ++ '/' :: (path.toList ++ '?' :: ['t', 'o', 'k', 'e', 'n', '='])) := by
      refine List.takeWhile_eq_self_iff.mpr ?_
      intro c hc
      simp only [decide_eq_true_eq]
      intro hceq
      subst hceq
      rw [List.mem_cons, List.mem_cons, List.mem_cons, List.mem_cons, List.mem_cons,
          List.mem_append, List.mem_cons, List.mem_append] at hc
      rcases hc with h | h | h | h | h | h | h | h | h
      · exact absurd h (by decide)
      · exact absurd h (by decide)
      · exact absurd h (by decide)
      · exact absurd h (by decide)
      · exact absurd h (by decide)
      · exact (hhost _ h).2.2 rfl
      · exact absurd h (by decide)
      · exact (hpath _ h).2 rfl
      · exact absurd h (by decide)
    have hquery : queryOf ("ws://" ++ host ++ "/" ++ path ++ "?token=") =
        some ['t', 'o', 'k', 'e', 'n', '='] := by
      unfold queryOf
      rw [hlist1, htw, hreassoc, hsplitQ]
    have hparse1 : parseURLOk ("ws://" ++ host ++ "/" ++ path ++ "?token=") = true := by
      unfold parseURLOk
      rw [hlist1]
      have hsp := @splitFirst_append_sep ':' ['w', 's']
        ('/' :: '/' ::
          (host.toList ++ '/' :: (path.toList ++ '?' :: ['t', 'o', 'k', 'e', 'n', '='])))
        (by decide)
      simp only [List.cons_append, List.nil_append] at hsp
      rw [hsp, hH]
      simp [hvs, List.takeWhile_cons, hends]
    unfold extractJWTFromURL
    rw [hparse1, hquery]
    simp [splitPieces, findTokenParam, pieceKV, splitFirst]
  · -- no token parameter: lookup yields none
    have hnotq2 : '?' ∉
        ('w' :: 's' :: ':' :: '/' :: '/' :: (host.toList ++ '/' :: path.toList)) := by
      intro hmem
      rw [List.mem_cons, List.mem_cons, List.mem_cons, List.mem_cons, List.mem_cons,
          List.mem_append, List.mem_cons] at hmem
      rcases hmem with h | h | h | h | h | h | h | h
      · exact absurd h (by decide)
      · exact absurd h (by decide)
      · exact absurd h (by decide)
      · exact absurd h (by decide)
      · exact absurd h (by decide)
      · exact (hhost _ h).2.1 rfl
      · exact absurd h (by decide)
      · exact (hpath _ h).1 rfl
    have htw2 : ('w' :: 's' :: ':' :: '/' :: '/' ::
        (host.toList ++ '/' :: path.toList)).takeWhile
          (fun c => decide (c ≠ '#')) =
        'w' :: 's' :: ':' :: '/' :: '/' :: (host.toList ++ '/' :: path.toList) := by
      refine List.takeWhile_eq_self_iff.mpr ?_
      intro c hc
      simp only [decide_eq_true_eq]
      intro hceq
      subst hceq
      rw [List.mem_cons, List.mem_cons, List.mem_cons, List.mem_cons, List.mem_cons,
          List.mem_append, List.mem_cons] at hc
      rcases hc with h | h | h | h | h | h | h | h
      · exact absurd h (by decide)
      · exact absurd h (by decide)
      · exact absurd h (by decide)
      · exact absurd h (by decide)
      · exact absurd h (by decide)
      · exact (hhost _ h).2.2 rfl
      · exact absurd h (by decide)
      · exact (hpath _ h).2 rfl
    have hquery2 : queryOf ("ws://" ++ host ++ "/" ++ path) = none := by
      unfold queryOf
      rw [hlist2, htw2, splitFirst_eq_none hnotq2]
    unfold extractJWTFromURL
    rw [hquery2]
    simp


/-- C10 witness: the theorem applied to the concrete host `host` and
path `ws`, i.e. the URLs `ws://host/ws?token=` and `ws://host/ws`. -/
theorem extractJWT_empty_token_value_witness :
    extractJWTFromURL ("ws://" ++ "host" ++ "/" ++ "ws" ++ "?token=") = some "" ∧
    extractJWTFromURL ("ws://" ++ "host" ++ "/" ++ "ws") = none ∧
    extractJWTFromURL "not-a-url" = none ∧
    validateJWT (fun _ => .returned none none) "" = (.err "Missing JWT token", 0) :=
  extractJWT_empty_token_value (fun _ => .returned none none) "host" "ws"
    (by decide) (by decide) (by decide)
